import Mathlib

/-!
Verification of the ocean.py compute-job client and dispenser model.

This file shallowly embeds the two source modules
`ocean_lib/ocean/ocean_compute.py` and `ocean_lib/models/dispenser.py`.
Python values flowing through provider-response dictionaries are modelled
by the inductive type `PyVal`; Python `dict`s are association lists with
first-match lookup (Python dicts have unique keys, so first-match agrees
with Python lookup).  Fallible Python operations (`d[k]` raising
`KeyError`, `t[i]` raising `IndexError`, failing `assert`) are modelled
with `Except String`.

External collaborators of the two modules that live outside the embedded
sources (address checksumming, the contract address book, wei
conversion, the global config provider, asset resolution and the HTTP
data provider) are modelled from the specification, either as explicit
definitions marked `Modelled from the spec:` or as function-valued
parameters/record fields supplied by the environment.
-/

/-- Model of the Python values that flow through the embedded code:
`None`, booleans, integers, strings, lists and string-keyed dicts. -/
inductive PyVal : Type where
  | none : PyVal
  | bool : Bool → PyVal
  | int : Int → PyVal
  | str : String → PyVal
  | list : List PyVal → PyVal
  | dict : List (String × PyVal) → PyVal

/-- A Python dict with string keys, as an association list (unique keys
in Python, so first-match lookup below is Python's lookup). -/
abbrev PyDict : Type := List (String × PyVal)

/-- First-match lookup in an association list, `d.get(k)`-style:
`some v` when the key is present, `none` otherwise. -/
def dictLookup (d : PyDict) (k : String) : Option PyVal :=
  match d with
  | [] => Option.none
  | (k₁, v₁) :: rest => if k₁ = k then Option.some v₁ else dictLookup rest k

/-- Python `d[k]`: the value when present, a `KeyError` otherwise. -/
def dictGet (d : PyDict) (k : String) : Except String PyVal :=
  match dictLookup d k with
  | Option.some v => Except.ok v
  | Option.none => Except.error ("KeyError: " ++ k)

/-- Python `d.get(k, default)`. -/
def dictGetD (d : PyDict) (k : String) (dflt : PyVal) : PyVal :=
  (dictLookup d k).getD dflt

/-- Whether the key occurs in the dict. -/
def hasKey (d : PyDict) (k : String) : Bool :=
  match d with
  | [] => false
  | (k₁, _) :: rest => k₁ = k || hasKey rest k

/-- Replace the value stored at an existing key, keeping its position. -/
def overwriteKey (d : PyDict) (k : String) (v : PyVal) : PyDict :=
  match d with
  | [] => []
  | (k₁, v₁) :: rest =>
      if k₁ = k then (k₁, v) :: rest else (k₁, v₁) :: overwriteKey rest k v

/-- Set one key: overwrite in place when present, append when absent —
the effect of one step of Python `dict.update`. -/
def insertKey (d : PyDict) (k : String) (v : PyVal) : PyDict :=
  if hasKey d k then overwriteKey d k v else d ++ [(k, v)]

/-- Python `base.update(upd)`: each key of `upd` overwrites the matching
key of `base` (in place) or is appended; no deep merge. -/
def dictUpdate (base : PyDict) (upd : PyDict) : PyDict :=
  match upd with
  | [] => base
  | (k, v) :: rest => dictUpdate (insertKey base k v) rest

/-- Python `t[i]` on a sequence: the element, or an `IndexError` when
the sequence is too short. -/
def atIndex (l : List PyVal) (i : Nat) : Except String PyVal :=
  match l.get? i with
  | Option.some v => Except.ok v
  | Option.none => Except.error "IndexError: tuple index out of range"

/-- Python truthiness of an optional string argument: `None` and the
empty string are falsy, every other string is truthy. -/
def pyTruthyOptStr (s : Option String) : Bool :=
  match s with
  | Option.none => false
  | Option.some s => decide (s ≠ "")

mutual

/-- Python `str()` on the scalar fragment of `PyVal` (as interpolated by
an f-string).  Container renderings are abbreviated to a joined element
list: the embedded code only ever interpolates scalars. -/
def pyStr : PyVal → String
  | PyVal.none => "None"
  | PyVal.bool b => cond b "True" "False"
  | PyVal.int n => toString n
  | PyVal.str s => s
  | PyVal.list xs => "[" ++ pyStrJoin xs ++ "]"
  | PyVal.dict d => "dict(" ++ pyStrJoinPairs d ++ ")"

/-- Comma-joined renderings of a list of values. -/
def pyStrJoin : List PyVal → String
  | [] => ""
  | [x] => pyStr x
  | x :: y :: rest => pyStr x ++ ", " ++ pyStrJoin (y :: rest)

/-- Comma-joined renderings of the entries of a dict. -/
def pyStrJoinPairs : List (String × PyVal) → String
  | [] => ""
  | [(k, v)] => k ++ ": " ++ pyStr v
  | (k, v) :: p :: rest => k ++ ": " ++ pyStr v ++ ", " ++ pyStrJoinPairs (p :: rest)

end

/-! ### Environment of `ocean_compute.py`

The configuration object, accounts, the asset-resolution collaborator
and the HTTP data provider are external to the embedded module; they are
modelled as records of the data the module reads from them. -/

/-- The configuration fields read by `ocean_compute.py`. -/
structure Config : Type where
  network_url : String
  provider_address : String
  aquarius_url : String

/-- An account; the module only reads its address (authentication
tokens come from the separate `auth` collaborator). -/
structure Account : Type where
  address : String

/-- Modelled from the spec: the opaque `AlgorithmMetadata` payload
(external `ocean_utils` class); the module forwards it unread.  Any
instance is truthy in Python, so the argument slot is `Option AlgMeta`
with `none` for Python `None`. -/
structure AlgMeta : Type where
  payload : PyDict

/-- Modelled from the spec: the result of resolving an asset by DID and
taking its cloud-compute service agreement — the fields `start` and the
endpoint resolution read (`asset.data_token_address`, `sa.index`,
`sa.service_endpoint`). -/
structure Asset : Type where
  data_token_address : String
  service_index : Int
  service_endpoint : String

/-- The argument tuple each job-lifecycle provider call receives:
`(did, job_id, service_endpoint, account.address, auth_token)`. -/
structure JobRequest : Type where
  did : String
  job_id : String
  service_endpoint : String
  consumer_address : String
  auth_token : String

/-- The argument tuple `start` passes to
`data_provider.start_compute_job`. -/
structure StartRequest : Type where
  did : String
  service_endpoint : String
  consumer_address : String
  auth_token : String
  service_index : Int
  data_token_address : String
  tx_id : String
  algorithm_did : Option String
  algorithm_meta : Option AlgMeta
  output : PyDict
  job_id : Option String

/-- Modelled from the spec: the provider HTTP boundary — each operation
returns a JSON-like mapping with provider-defined keys. -/
structure DataProvider : Type where
  get_url : Config → String
  start_compute_job : StartRequest → PyDict
  compute_job_status : JobRequest → PyDict
  compute_job_result : JobRequest → PyDict
  stop_compute_job : JobRequest → PyDict
  restart_compute_job : JobRequest → PyDict
  delete_compute_job : JobRequest → PyDict

/-- The `OceanCompute` instance state: injected auth, config and data
provider, plus the modelled external collaborators — `resolve_asset`
(taking the DID and the metadata-store URL) and the process-global
config returned by `ConfigProvider.get_config()`. -/
structure OceanCompute : Type where
  auth_get : Account → String
  config : Config
  data_provider : DataProvider
  resolve_asset : String → String → Asset
  global_config : Config

/-- `OceanCompute._status_from_job_info`: normalize a provider job-info
mapping to `{ok, status, statusText}`; `ok` is the Python test
`job_info['status'] not in (31, 32)` (only an integer status equal to
31 or 32 compares equal to a member of that tuple). -/
def _status_from_job_info (job_info : PyDict) : Except String PyDict :=
  match dictGet job_info "status" with
  | Except.error e => Except.error e
  | Except.ok s =>
    match dictGet job_info "statusText" with
    | Except.error e => Except.error e
    | Except.ok t =>
      let ok : Bool :=
        match s with
        | PyVal.int n => decide ¬(n = 31 ∨ n = 32)
        | _ => true
      Except.ok [("ok", PyVal.bool ok), ("status", s), ("statusText", t)]

/-- The default output mapping built inside
`OceanCompute.check_output_dict` (the `default_output_def` local). -/
def default_output_def (consumer_account : Account) (data_provider : DataProvider)
    (config : Config) : PyDict :=
  [("nodeUri", PyVal.str config.network_url),
   ("brizoUri", PyVal.str (data_provider.get_url config)),
   ("brizoAddress", PyVal.str config.provider_address),
   ("metadata", PyVal.dict []),
   ("metadataUri", PyVal.str config.aquarius_url),
   ("owner", PyVal.str consumer_account.address),
   ("publishOutput", PyVal.int 0),
   ("publishAlgorithmLog", PyVal.int 0),
   ("whitelist", PyVal.list [])]

/-- `OceanCompute.check_output_dict`: fall back to the global config
when `config` is `None`, build the defaults, treat a non-dict
`output_def` as empty, and apply Python `dict.update`. -/
def OceanCompute.check_output_dict (output_def : PyVal) (consumer_account : Account)
    (data_provider : DataProvider) (config : Option Config)
    (global_config : Config) : PyDict :=
  let cfg := config.getD global_config
  let defaults := default_output_def consumer_account data_provider cfg
  let upd : PyDict :=
    match output_def with
    | PyVal.dict d => d
    | _ => []
  dictUpdate defaults upd

/-- `OceanCompute._get_service_endpoint`: resolve the asset when one is
not supplied, then take the compute service agreement's endpoint. -/
def OceanCompute.getServiceEndpoint (oc : OceanCompute) (did : String)
    (asset : Option Asset) : String :=
  (asset.getD (oc.resolve_asset did oc.config.aquarius_url)).service_endpoint

/-- The assertion message of `OceanCompute.start`. -/
def startAssertMsg : String :=
  "AssertionError: either an algorithm did or an algorithm meta must be provided."

/-- `OceanCompute.start`: assert `algorithm_did or algorithm_meta`
(Python truthiness), build the output dict (config argument omitted, so
the global config is used), resolve the asset and endpoint, issue the
start request and return `job_info['jobId']`.  The second component
lists the provider requests issued, so that failing the assertion
provably issues none. -/
def OceanCompute.start (oc : OceanCompute) (did : String) (consumer_account : Account)
    (transfer_tx_id : String) (algorithm_did : Option String)
    (algorithm_meta : Option AlgMeta) (output : PyVal) (job_id : Option String) :
    Except String PyVal × List StartRequest :=
  if pyTruthyOptStr algorithm_did || algorithm_meta.isSome then
    let out := OceanCompute.check_output_dict output consumer_account
      oc.data_provider Option.none oc.global_config
    let asset := oc.resolve_asset did oc.config.aquarius_url
    let service_endpoint := asset.service_endpoint
    let req : StartRequest :=
      ⟨did, service_endpoint, consumer_account.address, oc.auth_get consumer_account,
       asset.service_index, asset.data_token_address, transfer_tx_id,
       algorithm_did, algorithm_meta, out, job_id⟩
    let job_info := oc.data_provider.start_compute_job req
    (dictGet job_info "jobId", [req])
  else
    (Except.error startAssertMsg, [])

/-- The job request each lifecycle method builds (endpoint resolved
afresh, no asset supplied). -/
def OceanCompute.mkJobRequest (oc : OceanCompute) (did : String) (job_id : String)
    (account : Account) : JobRequest :=
  ⟨did, job_id, OceanCompute.getServiceEndpoint oc did Option.none,
   account.address, oc.auth_get account⟩

/-- `OceanCompute.status`: query the provider and normalize. -/
def OceanCompute.status (oc : OceanCompute) (did : String) (job_id : String)
    (account : Account) : Except String PyDict :=
  _status_from_job_info
    (oc.data_provider.compute_job_status (OceanCompute.mkJobRequest oc did job_id account))

/-- `OceanCompute.result`: fetch the provider result mapping and project
`{did, urls, logs}` with `dict.get` defaults. -/
def OceanCompute.result (oc : OceanCompute) (did : String) (job_id : String)
    (account : Account) : PyDict :=
  let info_dict := oc.data_provider.compute_job_result (OceanCompute.mkJobRequest oc did job_id account)
  [("did", dictGetD info_dict "resultsDid" (PyVal.str "")),
   ("urls", dictGetD info_dict "resultsUrls" (PyVal.list [])),
   ("logs", dictGetD info_dict "algorithmLogUrl" (PyVal.list []))]

/-- `OceanCompute.stop`: ask the provider to stop and normalize. -/
def OceanCompute.stop (oc : OceanCompute) (did : String) (job_id : String)
    (account : Account) : Except String PyDict :=
  _status_from_job_info
    (oc.data_provider.stop_compute_job (OceanCompute.mkJobRequest oc did job_id account))

/-- `OceanCompute.restart`: ask the provider to restart and normalize. -/
def OceanCompute.restart (oc : OceanCompute) (did : String) (job_id : String)
    (account : Account) : Except String PyDict :=
  _status_from_job_info
    (oc.data_provider.restart_compute_job (OceanCompute.mkJobRequest oc did job_id account))

/-- `OceanCompute.delete`: ask the provider to delete and normalize. -/
def OceanCompute.delete (oc : OceanCompute) (did : String) (job_id : String)
    (account : Account) : Except String PyDict :=
  _status_from_job_info
    (oc.data_provider.delete_compute_job (OceanCompute.mkJobRequest oc did job_id account))

/-! ### Embedding of `models/dispenser.py`

The address-checksumming routine (`ContractBase.to_checksum_address`)
and the contract address book (`get_address_of_type`) live outside the
embedded sources; the checksumming routine is passed as an explicit
function parameter and the address book as a plain association list. -/

/-- Modelled from the spec: `MAX_UINT256` (web3 constants module) — the
maximum representable 256-bit unsigned integer. -/
def MAX_UINT256 : Int := 2 ^ 256 - 1

/-- Modelled from the spec: the zero-address sentinel (web3 constants
module). -/
def ZERO_ADDRESS : String := "0x0000000000000000000000000000000000000000"

/-- A checksumming routine stands for the external
`ContractBase.to_checksum_address`: it normalizes an address string to
checksummed form or fails on malformed input. -/
abbrev ChecksumFn : Type := String → Except String String

/-- The `DispenserArguments` record; `max_tokens`, `max_balance` and
`with_mint` are stored exactly as passed (the Python class performs no
conversion on them), `allowed_swapper` is the checksummed address. -/
structure DispenserArguments : Type where
  max_tokens : PyVal
  max_balance : PyVal
  with_mint : PyVal
  allowed_swapper : String

/-- `DispenserArguments.__init__`: store the three values unchanged and
checksum `allowed_swapper` (construction fails when the routine rejects
the address). -/
def DispenserArguments.make (to_checksum_address : ChecksumFn)
    (max_tokens : PyVal) (max_balance : PyVal) (with_mint : PyVal)
    (allowed_swapper : String) : Except String DispenserArguments :=
  match to_checksum_address allowed_swapper with
  | Except.error e => Except.error e
  | Except.ok sw => Except.ok ⟨max_tokens, max_balance, with_mint, sw⟩

/-- `DispenserArguments()` with every argument left at its default:
`max_tokens = max_balance = MAX_UINT256`, `with_mint = True`,
`allowed_swapper = ZERO_ADDRESS`. -/
def DispenserArguments.mkDefault (to_checksum_address : ChecksumFn) :
    Except String DispenserArguments :=
  DispenserArguments.make to_checksum_address (PyVal.int MAX_UINT256)
    (PyVal.int MAX_UINT256) (PyVal.bool true) ZERO_ADDRESS

/-- Modelled from the spec: `get_address_of_type` — the
configuration/address-book lookup keyed by contract-type name, failing
when the name does not resolve. -/
def get_address_of_type (config_dict : List (String × String)) (t : String) :
    Except String String :=
  match config_dict with
  | [] => Except.error ("address not found: " ++ t)
  | (k, a) :: rest => if k = t then Except.ok a else get_address_of_type rest t

/-- `DispenserArguments.to_tuple`: resolve the "Dispenser" contract
address, checksum it, and return the ordered 5-tuple
`(address, max_tokens, max_balance, with_mint, allowed_swapper)`. -/
def DispenserArguments.to_tuple (to_checksum_address : ChecksumFn)
    (args : DispenserArguments) (config_dict : List (String × String)) :
    Except String (String × PyVal × PyVal × PyVal × String) :=
  match get_address_of_type config_dict "Dispenser" with
  | Except.error e => Except.error e
  | Except.ok dispenser_address =>
    match to_checksum_address dispenser_address with
    | Except.error e => Except.error e
    | Except.ok ca =>
      Except.ok (ca, args.max_tokens, args.max_balance, args.with_mint,
        args.allowed_swapper)

/-- The `DispenserStatus` record: seven fields, held exactly as decoded
from the contract tuple (the Python class annotates but never converts
or validates them). -/
structure DispenserStatus : Type where
  active : PyVal
  owner_address : PyVal
  is_minter : PyVal
  max_tokens : PyVal
  max_balance : PyVal
  balance : PyVal
  allowed_swapper : PyVal

/-- `DispenserStatus.__init__`: positional decode `t[0] .. t[6]` with no
transformation; an undersized sequence raises `IndexError`. -/
def DispenserStatus.fromTuple (status_tup : List PyVal) : Except String DispenserStatus := do
  let a0 ← atIndex status_tup 0
  let a1 ← atIndex status_tup 1
  let a2 ← atIndex status_tup 2
  let a3 ← atIndex status_tup 3
  let a4 ← atIndex status_tup 4
  let a5 ← atIndex status_tup 5
  let a6 ← atIndex status_tup 6
  Except.ok ⟨a0, a1, a2, a3, a4, a5, a6⟩

/-- Modelled from the spec: `from_wei` (ocean util module) — render an
atomic-unit amount as a human-scaled decimal string (divide by `10^18`,
trailing fractional zeros trimmed). -/
def from_wei (x_wei : Int) : String :=
  let sign := if x_wei < 0 then "-" else ""
  let n := x_wei.natAbs
  let whole := n / 10 ^ 18
  let frac := n % 10 ^ 18
  if frac = 0 then
    sign ++ toString whole
  else
    let fracDigits := (Nat.toDigits 10 (10 ^ 18 + frac)).drop 1
    let trimmed := (fracDigits.reverse.dropWhile (fun c => c = '0')).reverse
    sign ++ toString whole ++ "." ++ String.mk trimmed

/-- `_strWithWei`: `f"{from_wei(x_wei)} ({x_wei} wei)"`.  The
`@enforce_types` decorator makes the call fail on a non-integer; that
check is performed at the call sites in `DispenserStatus.render`. -/
def _strWithWei (x_wei : Int) : String :=
  from_wei x_wei ++ " (" ++ toString x_wei ++ " wei)"

/-- Python `.lower()` on the (ASCII) address strings compared here. -/
def pyLower (s : String) : String := s.toLower

/-- The f-string body of `DispenserStatus.__str__` up to the
`allowed_swapper` branch, with the three monetary interpolations
rendered through `_strWithWei`. -/
def renderBody (d : DispenserStatus) (bal mt mb : Int) : String :=
  "DispenserStatus: " ++
  "  active = " ++ pyStr d.active ++ "\n" ++
  "  owner_address = " ++ pyStr d.owner_address ++ "\n" ++
  "  balance (of tokens) = " ++ _strWithWei bal ++ "\n" ++
  "  is_minter (can mint more tokens?) = " ++ pyStr d.is_minter ++ "\n" ++
  "  max_tokens (to dispense) = " ++ _strWithWei mt ++ "\n" ++
  "  max_balance (of requester) = " ++ _strWithWei mb ++ "\n"

/-- `DispenserStatus.__str__`.  The f-string interpolates
`_strWithWei(balance)`, then `_strWithWei(max_tokens)`, then
`_strWithWei(max_balance)` — `@enforce_types` raises on a non-integer
in that order — and the final branch calls `.lower()` on
`allowed_swapper`, which must be a string. -/
def DispenserStatus.render (d : DispenserStatus) : Except String String :=
  match d.balance with
  | PyVal.int bal =>
    (match d.max_tokens with
     | PyVal.int mt =>
       (match d.max_balance with
        | PyVal.int mb =>
          let s := renderBody d bal mt mb
          (match d.allowed_swapper with
           | PyVal.str sw =>
             if pyLower sw = pyLower ZERO_ADDRESS then
               Except.ok (s ++ "  allowed_swapper = anyone can request\n")
             else
               Except.ok (s ++ "  allowed_swapper = " ++ sw ++ "\n")
           | _ => Except.error "AttributeError: lower")
        | _ => Except.error "TypeError: _strWithWei expects int")
     | _ => Except.error "TypeError: _strWithWei expects int")
  | _ => Except.error "TypeError: _strWithWei expects int"

/-! ### Concrete fixtures

Closed sample environments used to instantiate the theorems below on
concrete inputs. -/

/-- A sample configuration. -/
def cfg0 : Config := ⟨"http://node:8545", "0xProviderAddr", "http://aquarius:5000"⟩

/-- A sample consumer account. -/
def acct0 : Account := ⟨"0xConsumerAddr"⟩

/-- A sample algorithm-metadata payload. -/
def meta0 : AlgMeta := ⟨[("url", PyVal.str "http://algo")]⟩

/-- A sample resolved asset. -/
def asset0 : Asset := ⟨"0xDataToken", 3, "http://provider:8030/compute"⟩

/-- A sample job-info mapping carrying both normalization keys. -/
def jobInfo0 : PyDict :=
  [("status", PyVal.int 70), ("statusText", PyVal.str "Job completed")]

/-- A sample job-info mapping missing the `status` key. -/
def jobInfoMissing : PyDict := [("statusText", PyVal.str "pending")]

/-- A sample data provider: `start` hands back a job id, and every
lifecycle query returns `jobInfo0`. -/
def dp0 : DataProvider :=
  ⟨fun _ => "http://provider:8030",
   fun _ => [("jobId", PyVal.str "job-1")],
   fun _ => jobInfo0,
   fun _ => [],
   fun _ => jobInfo0,
   fun _ => jobInfo0,
   fun _ => jobInfo0⟩

/-- A sample `OceanCompute` instance over `dp0`. -/
def oc0 : OceanCompute := ⟨fun _ => "auth-token", cfg0, dp0, fun _ _ => asset0, cfg0⟩

/-- A data provider whose lifecycle queries return a mapping missing
the `status` key. -/
def dpMissing : DataProvider :=
  ⟨fun _ => "http://provider:8030",
   fun _ => [],
   fun _ => jobInfoMissing,
   fun _ => jobInfoMissing,
   fun _ => jobInfoMissing,
   fun _ => jobInfoMissing,
   fun _ => jobInfoMissing⟩

/-- An `OceanCompute` instance over `dpMissing`. -/
def ocMissing : OceanCompute :=
  ⟨fun _ => "auth-token", cfg0, dpMissing, fun _ _ => asset0, cfg0⟩

/-- A sample checksumming routine: accepts 42-character addresses
unchanged, rejects everything else. -/
def checksum0 : ChecksumFn :=
  fun a => if a.length = 42 then Except.ok a else Except.error "InvalidAddress"

/-- Sample dispenser arguments. -/
def args0 : DispenserArguments :=
  ⟨PyVal.int 100, PyVal.int 50, PyVal.bool false, ZERO_ADDRESS⟩

/-- A sample address book resolving the "Dispenser" contract. -/
def book0 : List (String × String) :=
  [("Dispenser", "0x00000000000000000000000000000000000000d1")]

/-- A sample decoded dispenser status with integer monetary fields and
the zero address as `allowed_swapper`. -/
def d0 : DispenserStatus :=
  ⟨PyVal.bool true, PyVal.str "0xOwner", PyVal.bool true, PyVal.int 2,
   PyVal.int 3, PyVal.int 1, PyVal.str ZERO_ADDRESS⟩

/-- First-or-second choice on options (Python `x if x is not None else y`
shape used to state the merge semantics of `dict.update`). -/
def optOr (a b : Option PyVal) : Option PyVal :=
  match a with
  | Option.some v => Option.some v
  | Option.none => b

/-! ### Association-list lemmas for `dict.update` -/

/-- `optOr a none = a`. -/
theorem optOr_none (a : Option PyVal) : optOr a Option.none = a := by
  cases a <;> rfl

/-- A key that `hasKey` misses has no binding. -/
theorem dictLookup_eq_none_of_not_hasKey (d : PyDict) (k : String)
    (h : hasKey d k = false) : dictLookup d k = Option.none := by
  induction d with
  | nil => rfl
  | cons p rest ih =>
    obtain ⟨k₁, v₁⟩ := p
    simp only [hasKey, Bool.or_eq_false_iff, decide_eq_false_iff_not] at h
    simp [dictLookup, h.1, ih h.2]

/-- A successful lookup means the key occurs in the dict. -/
theorem mem_keys_of_dictLookup_some (d : PyDict) (k : String) (v : PyVal)
    (h : dictLookup d k = Option.some v) : k ∈ d.map Prod.fst := by
  induction d with
  | nil => simp [dictLookup] at h
  | cons p rest ih =>
    obtain ⟨k₁, v₁⟩ := p
    by_cases hk : k₁ = k
    · simp [hk]
    · simp only [dictLookup, if_neg hk] at h
      simp [ih h]

/-- Overwriting an existing key makes it look up to the new value. -/
theorem dictLookup_overwriteKey_self (d : PyDict) (k : String) (v : PyVal)
    (h : hasKey d k = true) : dictLookup (overwriteKey d k v) k = Option.some v := by
  induction d with
  | nil => simp [hasKey] at h
  | cons p rest ih =>
    obtain ⟨k₁, v₁⟩ := p
    by_cases hk : k₁ = k
    · simp [overwriteKey, hk, dictLookup]
    · simp only [hasKey, Bool.or_eq_true, decide_eq_true_eq] at h
      rcases h with h | h
      · exact absurd h hk
      · simp [overwriteKey, hk, dictLookup, ih h]

/-- Overwriting one key leaves every other key's lookup unchanged. -/
theorem dictLookup_overwriteKey_ne (d : PyDict) (k k' : String) (v : PyVal)
    (h : k ≠ k') : dictLookup (overwriteKey d k v) k' = dictLookup d k' := by
  induction d with
  | nil => rfl
  | cons p rest ih =>
    obtain ⟨k₁, v₁⟩ := p
    by_cases hk : k₁ = k
    · subst hk
      simp [overwriteKey, dictLookup, h]
    · simp [overwriteKey, hk, dictLookup, ih]

/-- Lookup distributes over append, preferring the left dict. -/
theorem dictLookup_append (d₁ d₂ : PyDict) (k : String) :
    dictLookup (d₁ ++ d₂) k = optOr (dictLookup d₁ k) (dictLookup d₂ k) := by
  induction d₁ with
  | nil => rfl
  | cons p rest ih =>
    obtain ⟨k₁, v₁⟩ := p
    by_cases hk : k₁ = k
    · simp [dictLookup, hk, optOr]
    · simp [dictLookup, hk, ih]

/-- The single-key update step: the set key reads back the new value,
all other keys are untouched. -/
theorem dictLookup_insertKey (d : PyDict) (k k' : String) (v : PyVal) :
    dictLookup (insertKey d k v) k' =
      if k = k' then Option.some v else dictLookup d k' := by
  by_cases hk : k = k'
  · subst hk
    by_cases hh : hasKey d k = true
    · simp [insertKey, hh, dictLookup_overwriteKey_self d k v hh]
    · have hh' : hasKey d k = false := by
        cases hcase : hasKey d k with
        | false => rfl
        | true => exact absurd hcase hh
      simp [insertKey, hh', dictLookup_append,
        dictLookup_eq_none_of_not_hasKey d k hh', optOr, dictLookup]
  · by_cases hh : hasKey d k = true
    · simp [insertKey, hh, dictLookup_overwriteKey_ne d k k' v hk, hk]
    · have hh' : hasKey d k = false := by
        cases hcase : hasKey d k with
        | false => rfl
        | true => exact absurd hcase hh
      simp [insertKey, hh', dictLookup_append, dictLookup, hk, optOr_none]

/-- Python `dict.update` merge semantics: when the update's keys are
distinct (always true of a Python dict), each key of the result reads
the updated value when the update binds it and the base value
otherwise. -/
theorem dictLookup_dictUpdate (upd : PyDict) (base : PyDict) (k : String)
    (h : (upd.map Prod.fst).Nodup) :
    dictLookup (dictUpdate base upd) k =
      optOr (dictLookup upd k) (dictLookup base k) := by
  induction upd generalizing base with
  | nil => simp [dictUpdate, dictLookup, optOr]
  | cons p rest ih =>
    obtain ⟨k₁, v₁⟩ := p
    simp only [List.map_cons, List.nodup_cons] at h
    obtain ⟨hk₁, hrest⟩ := h
    rw [dictUpdate, ih (insertKey base k₁ v₁) hrest, dictLookup_insertKey]
    by_cases hk : k₁ = k
    · subst hk
      have hnone : dictLookup rest k₁ = Option.none := by
        cases hcase : dictLookup rest k₁ with
        | none => rfl
        | some v => exact absurd (mem_keys_of_dictLookup_some rest k₁ v hcase) hk₁
      simp [dictLookup, hnone, optOr]
    · simp [dictLookup, hk]

/-! ### Claims about `ocean_compute.py` -/

/-- C1 (counterexample): calling `start` with BOTH `algorithm_did` and
`algorithm_meta` supplied does not fail the precondition — the request
is issued and the job id is returned — contradicting the claim that
exactly one of the two must be non-empty. -/
theorem start_both_supplied_succeeds :
    (OceanCompute.start oc0 "did:op:asset" acct0 "0xtx" (Option.some "did:op:algo")
      (Option.some meta0) PyVal.none Option.none).1 = Except.ok (PyVal.str "job-1") ∧
    (OceanCompute.start oc0 "did:op:asset" acct0 "0xtx" (Option.some "did:op:algo")
      (Option.some meta0) PyVal.none Option.none).2.length = 1 := by
  exact ⟨rfl, rfl⟩

/-- C1 (amended): `start` requires AT LEAST one of `algorithm_did` and
`algorithm_meta` to be non-empty: when neither is supplied the
assertion fails and no provider request is issued, and when at least
one is supplied (including both) the precondition check passes and the
start request is issued. -/
theorem start_requires_algorithm (oc : OceanCompute) (did : String)
    (consumer_account : Account) (transfer_tx_id : String)
    (algorithm_did : Option String) (algorithm_meta : Option AlgMeta)
    (output : PyVal) (job_id : Option String) :
    (pyTruthyOptStr algorithm_did = false ∧ algorithm_meta = Option.none →
      OceanCompute.start oc did consumer_account transfer_tx_id algorithm_did
        algorithm_meta output job_id = (Except.error startAssertMsg, [])) ∧
    (pyTruthyOptStr algorithm_did = true ∨ algorithm_meta.isSome = true →
      ∃ req : StartRequest,
        (OceanCompute.start oc did consumer_account transfer_tx_id algorithm_did
          algorithm_meta output job_id).2 = [req]) := by
  constructor
  · rintro ⟨h1, h2⟩
    subst h2
    simp [OceanCompute.start, h1]
  · intro h
    have hc : (pyTruthyOptStr algorithm_did || algorithm_meta.isSome) = true := by
      rcases h with h | h <;> simp [h]
    simp only [OceanCompute.start, hc]
    exact ⟨_, rfl⟩

/-- C1 (witness): with neither algorithm reference the assertion fails
and no request is sent; with only `algorithm_did` the check passes and
the request is issued. -/
theorem start_requires_algorithm_witness :
    OceanCompute.start oc0 "did:op:asset" acct0 "0xtx" Option.none Option.none
      PyVal.none Option.none = (Except.error startAssertMsg, []) ∧
    ∃ req : StartRequest,
      (OceanCompute.start oc0 "did:op:asset" acct0 "0xtx" (Option.some "did:op:algo")
        Option.none PyVal.none Option.none).2 = [req] :=
  ⟨(start_requires_algorithm oc0 "did:op:asset" acct0 "0xtx" Option.none Option.none
      PyVal.none Option.none).1 ⟨rfl, rfl⟩,
   (start_requires_algorithm oc0 "did:op:asset" acct0 "0xtx" (Option.some "did:op:algo")
      Option.none PyVal.none Option.none).2 (Or.inl (by decide))⟩

/-- C2: for a provider job-info mapping carrying an integer `status`
and a `statusText`, the normalized mapping has `ok` false exactly when
`status` is 31 or 32 (true for any other integer, fail-open), with
`status` and `statusText` passed through unchanged. -/
theorem status_from_job_info_ok_iff (job_info : PyDict) (n : Int) (t : PyVal)
    (hs : dictLookup job_info "status" = Option.some (PyVal.int n))
    (ht : dictLookup job_info "statusText" = Option.some t) :
    ∃ okb : Bool,
      _status_from_job_info job_info =
        Except.ok [("ok", PyVal.bool okb), ("status", PyVal.int n), ("statusText", t)] ∧
      (okb = false ↔ (n = 31 ∨ n = 32)) := by
  refine ⟨decide ¬(n = 31 ∨ n = 32), ?_, ?_⟩
  · simp [_status_from_job_info, dictGet, hs, ht]
  · rw [decide_eq_false_iff_not, not_not]

/-- C2 (witness): status 70 normalizes to `ok = true` with the fields
passed through. -/
theorem status_from_job_info_ok_iff_witness :
    ∃ okb : Bool,
      _status_from_job_info jobInfo0 =
        Except.ok [("ok", PyVal.bool okb), ("status", PyVal.int 70),
          ("statusText", PyVal.str "Job completed")] ∧
      (okb = false ↔ ((70 : Int) = 31 ∨ (70 : Int) = 32)) :=
  status_from_job_info_ok_iff jobInfo0 70 (PyVal.str "Job completed") rfl rfl

/-- C3: `check_output_dict` returns exactly the default mapping on any
non-dict input, and on a dict input each caller key strictly overwrites
the matching default key-by-key while unmentioned keys keep their
default values. -/
theorem check_output_dict_spec (consumer_account : Account)
    (data_provider : DataProvider) (config : Config) (global_config : Config) :
    (∀ output : PyVal, (∀ d : PyDict, output ≠ PyVal.dict d) →
      OceanCompute.check_output_dict output consumer_account data_provider
        (Option.some config) global_config =
        default_output_def consumer_account data_provider config) ∧
    (∀ u : PyDict, (u.map Prod.fst).Nodup → ∀ k : String,
      dictLookup (OceanCompute.check_output_dict (PyVal.dict u) consumer_account
        data_provider (Option.some config) global_config) k =
        optOr (dictLookup u k)
          (dictLookup (default_output_def consumer_account data_provider config) k)) := by
  constructor
  · intro output h
    cases output with
    | dict d => exact absurd rfl (h d)
    | none => rfl
    | bool b => rfl
    | int n => rfl
    | str s => rfl
    | list xs => rfl
  · intro u hu k
    exact dictLookup_dictUpdate u
      (default_output_def consumer_account data_provider config) k hu

/-- C3 (witness): `output=None` yields the defaults verbatim, and
`output={"publishOutput": 1}` overwrites exactly that key. -/
theorem check_output_dict_spec_witness :
    OceanCompute.check_output_dict PyVal.none acct0 dp0 (Option.some cfg0) cfg0 =
      default_output_def acct0 dp0 cfg0 ∧
    dictLookup (OceanCompute.check_output_dict
      (PyVal.dict [("publishOutput", PyVal.int 1)]) acct0 dp0
      (Option.some cfg0) cfg0) "publishOutput" =
      optOr (dictLookup [("publishOutput", PyVal.int 1)] "publishOutput")
        (dictLookup (default_output_def acct0 dp0 cfg0) "publishOutput") :=
  ⟨(check_output_dict_spec acct0 dp0 cfg0 cfg0).1 PyVal.none
      (fun d h => PyVal.noConfusion h),
   (check_output_dict_spec acct0 dp0 cfg0 cfg0).2 [("publishOutput", PyVal.int 1)]
      (by simp) "publishOutput"⟩

/-- C8: `result` projects the provider response to `{did, urls, logs}`
from `resultsDid`/`resultsUrls`/`algorithmLogUrl`, defaulting an absent
field to the empty string / empty list instead of raising. -/
theorem result_projection (oc : OceanCompute) (did : String) (job_id : String)
    (account : Account) (j : PyDict)
    (h : oc.data_provider.compute_job_result
      (OceanCompute.mkJobRequest oc did job_id account) = j) :
    OceanCompute.result oc did job_id account =
      [("did", (dictLookup j "resultsDid").getD (PyVal.str "")),
       ("urls", (dictLookup j "resultsUrls").getD (PyVal.list [])),
       ("logs", (dictLookup j "algorithmLogUrl").getD (PyVal.list []))] := by
  simp [OceanCompute.result, dictGetD, h]

/-- C8 (witness): on a provider response that is the empty mapping,
`result` returns all three defaults. -/
theorem result_projection_witness :
    OceanCompute.result oc0 "did:op:asset" "job-1" acct0 =
      [("did", (dictLookup [] "resultsDid").getD (PyVal.str "")),
       ("urls", (dictLookup [] "resultsUrls").getD (PyVal.list [])),
       ("logs", (dictLookup [] "algorithmLogUrl").getD (PyVal.list []))] :=
  result_projection oc0 "did:op:asset" "job-1" acct0 [] rfl

/-- C9: `stop`, `restart` and `delete` normalize the provider response
with exactly the normalization `status` uses — when the underlying
provider calls return the same mapping `j`, all four operations return
the same `{ok, status, statusText}` result. -/
theorem lifecycle_same_normalization (oc : OceanCompute) (did : String)
    (job_id : String) (account : Account) (j : PyDict)
    (h1 : oc.data_provider.compute_job_status
      (OceanCompute.mkJobRequest oc did job_id account) = j)
    (h2 : oc.data_provider.stop_compute_job
      (OceanCompute.mkJobRequest oc did job_id account) = j)
    (h3 : oc.data_provider.restart_compute_job
      (OceanCompute.mkJobRequest oc did job_id account) = j)
    (h4 : oc.data_provider.delete_compute_job
      (OceanCompute.mkJobRequest oc did job_id account) = j) :
    OceanCompute.stop oc did job_id account = _status_from_job_info j ∧
    OceanCompute.restart oc did job_id account = _status_from_job_info j ∧
    OceanCompute.delete oc did job_id account = _status_from_job_info j ∧
    OceanCompute.status oc did job_id account = _status_from_job_info j := by
  refine ⟨?_, ?_, ?_, ?_⟩
  · simp [OceanCompute.stop, h2]
  · simp [OceanCompute.restart, h3]
  · simp [OceanCompute.delete, h4]
  · simp [OceanCompute.status, h1]

/-- C9 (witness): over a provider answering `jobInfo0` to all four
queries, the four operations agree. -/
theorem lifecycle_same_normalization_witness :
    OceanCompute.stop oc0 "did:op:asset" "job-1" acct0 = _status_from_job_info jobInfo0 ∧
    OceanCompute.restart oc0 "did:op:asset" "job-1" acct0 = _status_from_job_info jobInfo0 ∧
    OceanCompute.delete oc0 "did:op:asset" "job-1" acct0 = _status_from_job_info jobInfo0 ∧
    OceanCompute.status oc0 "did:op:asset" "job-1" acct0 = _status_from_job_info jobInfo0 :=
  lifecycle_same_normalization oc0 "did:op:asset" "job-1" acct0 jobInfo0 rfl rfl rfl rfl

/-- C10: a provider response missing `status` or `statusText` makes
`status`, `stop`, `restart` and `delete` fail with a key-lookup error
(no defaulting), while `result` on the same response still returns its
defaulted projection. -/
theorem missing_keys_fail_closed (oc : OceanCompute) (did : String)
    (job_id : String) (account : Account) (j : PyDict)
    (hmiss : dictLookup j "status" = Option.none ∨
      dictLookup j "statusText" = Option.none)
    (h1 : oc.data_provider.compute_job_status
      (OceanCompute.mkJobRequest oc did job_id account) = j)
    (h2 : oc.data_provider.stop_compute_job
      (OceanCompute.mkJobRequest oc did job_id account) = j)
    (h3 : oc.data_provider.restart_compute_job
      (OceanCompute.mkJobRequest oc did job_id account) = j)
    (h4 : oc.data_provider.delete_compute_job
      (OceanCompute.mkJobRequest oc did job_id account) = j)
    (h5 : oc.data_provider.compute_job_result
      (OceanCompute.mkJobRequest oc did job_id account) = j) :
    (∃ e, OceanCompute.status oc did job_id account = Except.error e) ∧
    (∃ e, OceanCompute.stop oc did job_id account = Except.error e) ∧
    (∃ e, OceanCompute.restart oc did job_id account = Except.error e) ∧
    (∃ e, OceanCompute.delete oc did job_id account = Except.error e) ∧
    OceanCompute.result oc did job_id account =
      [("did", (dictLookup j "resultsDid").getD (PyVal.str "")),
       ("urls", (dictLookup j "resultsUrls").getD (PyVal.list [])),
       ("logs", (dictLookup j "algorithmLogUrl").getD (PyVal.list []))] := by
  have herr : ∃ e, _status_from_job_info j = Except.error e := by
    rcases hmiss with h | h
    · exact ⟨"KeyError: status", by simp [_status_from_job_info, dictGet, h]⟩
    · cases hs : dictLookup j "status" with
      | none => exact ⟨"KeyError: status", by simp [_status_from_job_info, dictGet, hs]⟩
      | some s =>
        exact ⟨"KeyError: statusText", by simp [_status_from_job_info, dictGet, hs, h]⟩
  obtain ⟨e, he⟩ := herr
  refine ⟨⟨e, ?_⟩, ⟨e, ?_⟩, ⟨e, ?_⟩, ⟨e, ?_⟩, ?_⟩
  · simp [OceanCompute.status, h1, he]
  · simp [OceanCompute.stop, h2, he]
  · simp [OceanCompute.restart, h3, he]
  · simp [OceanCompute.delete, h4, he]
  · simp [OceanCompute.result, dictGetD, h5]

/-- C10 (witness): over a provider answering a mapping that lacks
`status`, the four normalizing operations fail and `result` still
returns its defaults. -/
theorem missing_keys_fail_closed_witness :
    (∃ e, OceanCompute.status ocMissing "did:op:asset" "job-1" acct0 = Except.error e) ∧
    (∃ e, OceanCompute.stop ocMissing "did:op:asset" "job-1" acct0 = Except.error e) ∧
    (∃ e, OceanCompute.restart ocMissing "did:op:asset" "job-1" acct0 = Except.error e) ∧
    (∃ e, OceanCompute.delete ocMissing "did:op:asset" "job-1" acct0 = Except.error e) ∧
    OceanCompute.result ocMissing "did:op:asset" "job-1" acct0 =
      [("did", (dictLookup jobInfoMissing "resultsDid").getD (PyVal.str "")),
       ("urls", (dictLookup jobInfoMissing "resultsUrls").getD (PyVal.list [])),
       ("logs", (dictLookup jobInfoMissing "algorithmLogUrl").getD (PyVal.list []))] :=
  missing_keys_fail_closed ocMissing "did:op:asset" "job-1" acct0 jobInfoMissing
    (Or.inl rfl) rfl rfl rfl rfl rfl

/-! ### Claims about `models/dispenser.py` -/

/-- C4: decoding a status tuple of length at least 7 assigns each field
positionally with no transformation, and decoding a shorter sequence
fails with an index error. -/
theorem dispenser_status_decode :
    (∀ (a0 a1 a2 a3 a4 a5 a6 : PyVal) (rest : List PyVal),
      DispenserStatus.fromTuple (a0 :: a1 :: a2 :: a3 :: a4 :: a5 :: a6 :: rest) =
        Except.ok ⟨a0, a1, a2, a3, a4, a5, a6⟩) ∧
    (∀ t : List PyVal, t.length < 7 →
      ∃ e, DispenserStatus.fromTuple t = Except.error e) := by
  constructor
  · intro a0 a1 a2 a3 a4 a5 a6 rest
    rfl
  · intro t ht
    rcases t with _ | ⟨a0, _ | ⟨a1, _ | ⟨a2, _ | ⟨a3, _ | ⟨a4, _ | ⟨a5, _ | ⟨a6, rest⟩⟩⟩⟩⟩⟩⟩
    · exact ⟨_, rfl⟩
    · exact ⟨_, rfl⟩
    · exact ⟨_, rfl⟩
    · exact ⟨_, rfl⟩
    · exact ⟨_, rfl⟩
    · exact ⟨_, rfl⟩
    · exact ⟨_, rfl⟩
    · simp only [List.length_cons] at ht
      omega

/-- C4 (witness): a concrete 7-tuple decodes field-for-field, and the
empty sequence fails. -/
theorem dispenser_status_decode_witness :
    DispenserStatus.fromTuple
      [PyVal.bool true, PyVal.str "0xOwner", PyVal.bool false, PyVal.int 7,
       PyVal.int 8, PyVal.int 9, PyVal.str "0xSwapper"] =
      Except.ok ⟨PyVal.bool true, PyVal.str "0xOwner", PyVal.bool false, PyVal.int 7,
        PyVal.int 8, PyVal.int 9, PyVal.str "0xSwapper"⟩ ∧
    ∃ e, DispenserStatus.fromTuple [] = Except.error e :=
  ⟨dispenser_status_decode.1 (PyVal.bool true) (PyVal.str "0xOwner") (PyVal.bool false)
      (PyVal.int 7) (PyVal.int 8) (PyVal.int 9) (PyVal.str "0xSwapper") [],
   dispenser_status_decode.2 [] (by decide)⟩

/-- C5: constructing `DispenserArguments` with no overrides yields
`with_mint = True`, `max_tokens = max_balance = 2^256 - 1` and
`allowed_swapper` equal to the checksummed zero address; any
construction fails when the checksumming routine rejects the address. -/
theorem dispenser_arguments_defaults (to_checksum_address : ChecksumFn) :
    (∀ cz : String, to_checksum_address ZERO_ADDRESS = Except.ok cz →
      DispenserArguments.mkDefault to_checksum_address =
        Except.ok ⟨PyVal.int (2 ^ 256 - 1), PyVal.int (2 ^ 256 - 1),
          PyVal.bool true, cz⟩) ∧
    (∀ (mt mb wm : PyVal) (a e : String), to_checksum_address a = Except.error e →
      DispenserArguments.make to_checksum_address mt mb wm a = Except.error e) := by
  constructor
  · intro cz h
    simp [DispenserArguments.mkDefault, DispenserArguments.make, h, MAX_UINT256]
  · intro mt mb wm a e h
    simp [DispenserArguments.make, h]

/-- C5 (witness): under the sample checksumming routine, the default
construction returns the checksummed zero address and the stated
defaults, and a malformed address is rejected. -/
theorem dispenser_arguments_defaults_witness :
    DispenserArguments.mkDefault checksum0 =
      Except.ok ⟨PyVal.int (2 ^ 256 - 1), PyVal.int (2 ^ 256 - 1),
        PyVal.bool true, ZERO_ADDRESS⟩ ∧
    DispenserArguments.make checksum0 (PyVal.int 1) (PyVal.int 2) (PyVal.bool true)
      "0xshort" = Except.error "InvalidAddress" :=
  ⟨(dispenser_arguments_defaults checksum0).1 ZERO_ADDRESS rfl,
   (dispenser_arguments_defaults checksum0).2 (PyVal.int 1) (PyVal.int 2)
      (PyVal.bool true) "0xshort" "InvalidAddress" rfl⟩

/-- C6: whenever the "Dispenser" contract address resolves (and
checksums), `to_tuple` returns exactly the ordered 5-tuple
`(address, max_tokens, max_balance, with_mint, allowed_swapper)` with
the instance's field values unchanged. -/
theorem dispenser_arguments_to_tuple (to_checksum_address : ChecksumFn)
    (args : DispenserArguments) (config_dict : List (String × String))
    (addr ca : String)
    (hres : get_address_of_type config_dict "Dispenser" = Except.ok addr)
    (hca : to_checksum_address addr = Except.ok ca) :
    DispenserArguments.to_tuple to_checksum_address args config_dict =
      Except.ok (ca, args.max_tokens, args.max_balance, args.with_mint,
        args.allowed_swapper) := by
  simp [DispenserArguments.to_tuple, hres, hca]

/-- C6 (witness): the sample arguments and address book produce the
ordered 5-tuple. -/
theorem dispenser_arguments_to_tuple_witness :
    DispenserArguments.to_tuple checksum0 args0 book0 =
      Except.ok ("0x00000000000000000000000000000000000000d1", args0.max_tokens,
        args0.max_balance, args0.with_mint, args0.allowed_swapper) :=
  dispenser_arguments_to_tuple checksum0 args0 book0
    "0x00000000000000000000000000000000000000d1"
    "0x00000000000000000000000000000000000000d1" rfl rfl

/-- The f-string body contains each of the three `_strWithWei`
renderings, whatever is appended after it. -/
theorem renderBody_contains (d : DispenserStatus) (bal mt mb : Int) (tail : String) :
    (∃ pre post : String,
      renderBody d bal mt mb ++ tail = pre ++ _strWithWei bal ++ post) ∧
    (∃ pre post : String,
      renderBody d bal mt mb ++ tail = pre ++ _strWithWei mt ++ post) ∧
    (∃ pre post : String,
      renderBody d bal mt mb ++ tail = pre ++ _strWithWei mb ++ post) := by
  refine ⟨⟨"DispenserStatus: " ++ "  active = " ++ pyStr d.active ++ "\n" ++
      "  owner_address = " ++ pyStr d.owner_address ++ "\n" ++
      "  balance (of tokens) = ",
      "\n" ++ "  is_minter (can mint more tokens?) = " ++ pyStr d.is_minter ++ "\n" ++
      "  max_tokens (to dispense) = " ++ _strWithWei mt ++ "\n" ++
      "  max_balance (of requester) = " ++ _strWithWei mb ++ "\n" ++ tail, ?_⟩,
    ⟨"DispenserStatus: " ++ "  active = " ++ pyStr d.active ++ "\n" ++
      "  owner_address = " ++ pyStr d.owner_address ++ "\n" ++
      "  balance (of tokens) = " ++ _strWithWei bal ++ "\n" ++
      "  is_minter (can mint more tokens?) = " ++ pyStr d.is_minter ++ "\n" ++
      "  max_tokens (to dispense) = ",
      "\n" ++ "  max_balance (of requester) = " ++ _strWithWei mb ++ "\n" ++ tail, ?_⟩,
    ⟨"DispenserStatus: " ++ "  active = " ++ pyStr d.active ++ "\n" ++
      "  owner_address = " ++ pyStr d.owner_address ++ "\n" ++
      "  balance (of tokens) = " ++ _strWithWei bal ++ "\n" ++
      "  is_minter (can mint more tokens?) = " ++ pyStr d.is_minter ++ "\n" ++
      "  max_tokens (to dispense) = " ++ _strWithWei mt ++ "\n" ++
      "  max_balance (of requester) = ",
      "\n" ++ tail, ?_⟩⟩ <;>
  simp [renderBody, String.append_assoc]

/-- C7: the rendered status string shows "anyone can request" exactly
when `allowed_swapper` equals the zero address case-insensitively,
shows any other `allowed_swapper` verbatim, and renders each of the
three monetary fields as `_strWithWei`, i.e.
"<decimal> (<raw integer> wei)". -/
theorem dispenser_status_render_spec (d : DispenserStatus) (b mt mb : Int) (a : String)
    (hb : d.balance = PyVal.int b) (hmt : d.max_tokens = PyVal.int mt)
    (hmb : d.max_balance = PyVal.int mb) (ha : d.allowed_swapper = PyVal.str a) :
    (pyLower a = pyLower ZERO_ADDRESS →
      ∃ pre post : String, DispenserStatus.render d =
        Except.ok (pre ++ "anyone can request" ++ post)) ∧
    (pyLower a ≠ pyLower ZERO_ADDRESS →
      ∃ pre post : String, DispenserStatus.render d =
        Except.ok (pre ++ a ++ post)) ∧
    (∃ pre post : String, DispenserStatus.render d =
      Except.ok (pre ++ _strWithWei b ++ post)) ∧
    (∃ pre post : String, DispenserStatus.render d =
      Except.ok (pre ++ _strWithWei mt ++ post)) ∧
    (∃ pre post : String, DispenserStatus.render d =
      Except.ok (pre ++ _strWithWei mb ++ post)) := by
  obtain ⟨da, dow, dmi, dmt, dmb, dbal, dsw⟩ := d
  have hb' : dbal = PyVal.int b := hb
  have hmt' : dmt = PyVal.int mt := hmt
  have hmb' : dmb = PyVal.int mb := hmb
  have ha' : dsw = PyVal.str a := ha
  subst hb' hmt' hmb' ha'
  by_cases hz : pyLower a = pyLower ZERO_ADDRESS
  · have hr : DispenserStatus.render
        ⟨da, dow, dmi, PyVal.int mt, PyVal.int mb, PyVal.int b, PyVal.str a⟩ =
        Except.ok (renderBody
          ⟨da, dow, dmi, PyVal.int mt, PyVal.int mb, PyVal.int b, PyVal.str a⟩ b mt mb ++
          "  allowed_swapper = anyone can request\n") := by
      simp only [DispenserStatus.render]
      rw [if_pos hz]
    obtain ⟨hc1, hc2, hc3⟩ := renderBody_contains
      ⟨da, dow, dmi, PyVal.int mt, PyVal.int mb, PyVal.int b, PyVal.str a⟩ b mt mb
      "  allowed_swapper = anyone can request\n"
    refine ⟨fun _ => ?_, fun hne => absurd hz hne, ?_, ?_, ?_⟩
    · refine ⟨renderBody ⟨da, dow, dmi, PyVal.int mt, PyVal.int mb, PyVal.int b,
        PyVal.str a⟩ b mt mb ++ "  allowed_swapper = ", "\n", ?_⟩
      rw [hr]
      have hsplit : ("  allowed_swapper = anyone can request\n" : String) =
          "  allowed_swapper = " ++ "anyone can request" ++ "\n" := rfl
      rw [hsplit]
      simp [String.append_assoc]
    · obtain ⟨pre, post, hpp⟩ := hc1
      exact ⟨pre, post, by rw [hr, hpp]⟩
    · obtain ⟨pre, post, hpp⟩ := hc2
      exact ⟨pre, post, by rw [hr, hpp]⟩
    · obtain ⟨pre, post, hpp⟩ := hc3
      exact ⟨pre, post, by rw [hr, hpp]⟩
  · have hr : DispenserStatus.render
        ⟨da, dow, dmi, PyVal.int mt, PyVal.int mb, PyVal.int b, PyVal.str a⟩ =
        Except.ok (renderBody
          ⟨da, dow, dmi, PyVal.int mt, PyVal.int mb, PyVal.int b, PyVal.str a⟩ b mt mb ++
          "  allowed_swapper = " ++ a ++ "\n") := by
      simp only [DispenserStatus.render]
      rw [if_neg hz]
    obtain ⟨hc1, hc2, hc3⟩ := renderBody_contains
      ⟨da, dow, dmi, PyVal.int mt, PyVal.int mb, PyVal.int b, PyVal.str a⟩ b mt mb
      ("  allowed_swapper = " ++ a ++ "\n")
    refine ⟨fun heq => absurd heq hz, fun _ => ?_, ?_, ?_, ?_⟩
    · exact ⟨renderBody ⟨da, dow, dmi, PyVal.int mt, PyVal.int mb, PyVal.int b,
        PyVal.str a⟩ b mt mb ++ "  allowed_swapper = ", "\n", by rw [hr]⟩
    · obtain ⟨pre, post, hpp⟩ := hc1
      refine ⟨pre, post, ?_⟩
      rw [hr, ← hpp]
      simp [String.append_assoc]
    · obtain ⟨pre, post, hpp⟩ := hc2
      refine ⟨pre, post, ?_⟩
      rw [hr, ← hpp]
      simp [String.append_assoc]
    · obtain ⟨pre, post, hpp⟩ := hc3
      refine ⟨pre, post, ?_⟩
      rw [hr, ← hpp]
      simp [String.append_assoc]

/-- C7 (witness): the sample status `d0` (zero-address swapper, balance
1 wei, max_tokens 2 wei, max_balance 3 wei) renders with "anyone can
request" and all three wei renderings. -/
theorem dispenser_status_render_spec_witness :
    (pyLower ZERO_ADDRESS = pyLower ZERO_ADDRESS →
      ∃ pre post : String, DispenserStatus.render d0 =
        Except.ok (pre ++ "anyone can request" ++ post)) ∧
    (pyLower ZERO_ADDRESS ≠ pyLower ZERO_ADDRESS →
      ∃ pre post : String, DispenserStatus.render d0 =
        Except.ok (pre ++ ZERO_ADDRESS ++ post)) ∧
    (∃ pre post : String, DispenserStatus.render d0 =
      Except.ok (pre ++ _strWithWei 1 ++ post)) ∧
    (∃ pre post : String, DispenserStatus.render d0 =
      Except.ok (pre ++ _strWithWei 2 ++ post)) ∧
    (∃ pre post : String, DispenserStatus.render d0 =
      Except.ok (pre ++ _strWithWei 3 ++ post)) :=
  dispenser_status_render_spec d0 1 2 3 ZERO_ADDRESS rfl rfl rfl rfl
